import Mathlib

/-!
Formal model of the fundit-indexer worker: the block-range scheduler
(worker.js), the event-ingestion pipeline (src/services/blockchain.js)
and the donation relay with its transaction lifecycle tracker
(src/services/directDonationMonitor.js).

Conventions of the embedding:
* JS numbers and BigInt values are modelled as `Int`; BigInt division
  truncates toward zero, which is `Int.tdiv`.
* SQL tables are lists of row structures; an UPDATE maps over the list,
  an INSERT appends, `ON CONFLICT (k) DO NOTHING / DO UPDATE` checks the
  key column first.  Timestamp columns written with `NOW()` that no
  property depends on are omitted from the row types.
* Monetary columns written through `ethers.formatUnits(x, 8)` keep the
  raw fixed-point integer `x`; the conversion to a decimal string is
  injective and additive, so row identity and accumulation are faithful.
* A `BEGIN .. COMMIT / ROLLBACK` block is a function returning
  `Except Db Db`: `.ok db` is a committed state, `.error db` is the
  state after a ROLLBACK caused by an exception thrown inside the block
  (the block's own writes are discarded, the error is rethrown carrying
  the database as it was when the block started).  The possibility of an
  exception at an RPC or storage call inside a block is modelled by an
  explicit `fail` flag per block.
-/

/-! ### Block-range scheduler (worker.js) -/

/-- Larger batch size when catching up (worker.js `CATCHUP_BATCH_SIZE`). -/
def CATCHUP_BATCH_SIZE : Int := 5000

/-- Smaller batch size for frequent updates (worker.js `REALTIME_BATCH_SIZE`). -/
def REALTIME_BATCH_SIZE : Int := 100

/-- How far back to jump if needed (worker.js `RECENT_HISTORY_BLOCKS`). -/
def RECENT_HISTORY_BLOCKS : Int := 100000

/-- Gap threshold for jump-ahead (worker.js `MAX_ACCEPTABLE_GAP`). -/
def MAX_ACCEPTABLE_GAP : Int := 500000

/-- Realtime threshold in blocks (worker.js `REALTIME_THRESHOLD`). -/
def REALTIME_THRESHOLD : Int := 200

/-- Outcome of the per-network scheduling prelude of
`processNetworks` (worker.js lines 63..108) for one chain: the chosen
block range, the mode flags, and the value written to `indexer_state`
by the jump-ahead path (`persistedJump`), if any.  When `skip = true`
the code `continue`s before computing a batch, so `batchSize` and
`toBlock` are only meaningful for `skip = false`. -/
structure SchedResult where
  skip : Bool
  fromBlock : Int
  realtimeMode : Bool
  jumpedAhead : Bool
  persistedJump : Option Int
  batchSize : Int
  toBlock : Int
deriving Repr, DecidableEq

/-- Scheduling decision of `processNetworks` for one chain, given the
chain head `currentBlock` and the stored `last_indexed_block` (or
`none` when the chain has no `indexer_state` row yet). -/
def scheduleNetwork (currentBlock : Int) (lastIndexed : Option Int) : SchedResult :=
  match lastIndexed with
  | some li =>
      let gap := currentBlock - li
      let realtimeMode := decide (gap ≤ REALTIME_THRESHOLD)
      let jumped := decide (MAX_ACCEPTABLE_GAP < gap)
      let fromBlock :=
        if MAX_ACCEPTABLE_GAP < gap then max 1 (currentBlock - RECENT_HISTORY_BLOCKS)
        else li + 1
      let persisted :=
        if MAX_ACCEPTABLE_GAP < gap then some (fromBlock - 1) else none
      let batchSize := if realtimeMode then REALTIME_BATCH_SIZE else CATCHUP_BATCH_SIZE
      let blocksToProcess := min (currentBlock - fromBlock + 1) batchSize
      { skip := decide (currentBlock < fromBlock)
        fromBlock := fromBlock
        realtimeMode := realtimeMode
        jumpedAhead := jumped
        persistedJump := persisted
        batchSize := batchSize
        toBlock := fromBlock + blocksToProcess - 1 }
  | none =>
      let fromBlock := max 1 (currentBlock - RECENT_HISTORY_BLOCKS)
      let blocksToProcess := min (currentBlock - fromBlock + 1) CATCHUP_BATCH_SIZE
      { skip := decide (currentBlock < fromBlock)
        fromBlock := fromBlock
        realtimeMode := false
        jumpedAhead := false
        persistedJump := none
        batchSize := CATCHUP_BATCH_SIZE
        toBlock := fromBlock + blocksToProcess - 1 }

/-- C4: with an existing progress row, the scheduler jumps ahead exactly
when `currentHeight - lastIndexedBlock > MAX_ACCEPTABLE_GAP`; on a jump
it sets `fromBlock = max 1 (currentHeight - RECENT_HISTORY_BLOCKS)` and
persists `lastIndexedBlock = fromBlock - 1`; at `currentHeight =
1000000`, `lastIndexedBlock = 400000` triggers the jump and
`lastIndexedBlock = 600000` does not. -/
theorem gap_policy (currentBlock li : Int) :
    ((scheduleNetwork currentBlock (some li)).jumpedAhead = true ↔
      MAX_ACCEPTABLE_GAP < currentBlock - li)
    ∧ (MAX_ACCEPTABLE_GAP < currentBlock - li →
        (scheduleNetwork currentBlock (some li)).fromBlock =
          max 1 (currentBlock - RECENT_HISTORY_BLOCKS)
        ∧ (scheduleNetwork currentBlock (some li)).persistedJump =
          some (max 1 (currentBlock - RECENT_HISTORY_BLOCKS) - 1))
    ∧ (¬ MAX_ACCEPTABLE_GAP < currentBlock - li →
        (scheduleNetwork currentBlock (some li)).persistedJump = none)
    ∧ (scheduleNetwork 1000000 (some 400000)).jumpedAhead = true
    ∧ (scheduleNetwork 1000000 (some 600000)).jumpedAhead = false := by
  refine ⟨?_, ?_, ?_, by decide, by decide⟩
  · by_cases h : MAX_ACCEPTABLE_GAP < currentBlock - li <;>
      simp [scheduleNetwork, h]
  · intro h
    simp [scheduleNetwork, h]
  · intro h
    simp [scheduleNetwork, h]

/-- Witness for `gap_policy` at the concrete heights named by the claim. -/
theorem gap_policy_w :
    ((scheduleNetwork 1000000 (some 400000)).jumpedAhead = true ↔
      MAX_ACCEPTABLE_GAP < (1000000 : Int) - 400000)
    ∧ (MAX_ACCEPTABLE_GAP < (1000000 : Int) - 400000 →
        (scheduleNetwork 1000000 (some 400000)).fromBlock =
          max 1 (1000000 - RECENT_HISTORY_BLOCKS)
        ∧ (scheduleNetwork 1000000 (some 400000)).persistedJump =
          some (max 1 (1000000 - RECENT_HISTORY_BLOCKS) - 1))
    ∧ (¬ MAX_ACCEPTABLE_GAP < (1000000 : Int) - 400000 →
        (scheduleNetwork 1000000 (some 400000)).persistedJump = none)
    ∧ (scheduleNetwork 1000000 (some 400000)).jumpedAhead = true
    ∧ (scheduleNetwork 1000000 (some 600000)).jumpedAhead = false :=
  gap_policy 1000000 400000

/-- C8: with an existing progress row the scheduler picks the realtime
batch size exactly when the gap is at most `REALTIME_THRESHOLD`, the
catch-up batch size otherwise, and the computed `toBlock` equals
`min currentHeight (fromBlock + batchSize - 1)`, hence never exceeds
`currentHeight`. -/
theorem mode_selection (currentBlock li : Int) :
    ((scheduleNetwork currentBlock (some li)).batchSize =
      if currentBlock - li ≤ REALTIME_THRESHOLD then REALTIME_BATCH_SIZE
      else CATCHUP_BATCH_SIZE)
    ∧ (scheduleNetwork currentBlock (some li)).toBlock =
        min currentBlock
          ((scheduleNetwork currentBlock (some li)).fromBlock +
            (scheduleNetwork currentBlock (some li)).batchSize - 1)
    ∧ (scheduleNetwork currentBlock (some li)).toBlock ≤ currentBlock := by
  refine ⟨?_, ?_, ?_⟩
  · by_cases h : currentBlock - li ≤ REALTIME_THRESHOLD <;>
      simp [scheduleNetwork, h]
  · by_cases h : currentBlock - li ≤ REALTIME_THRESHOLD <;>
      by_cases hj : MAX_ACCEPTABLE_GAP < currentBlock - li <;>
      simp [scheduleNetwork, h, hj, REALTIME_BATCH_SIZE, CATCHUP_BATCH_SIZE,
        MAX_ACCEPTABLE_GAP, REALTIME_THRESHOLD] <;> omega
  · by_cases h : currentBlock - li ≤ REALTIME_THRESHOLD <;>
      by_cases hj : MAX_ACCEPTABLE_GAP < currentBlock - li <;>
      simp [scheduleNetwork, h, hj, REALTIME_BATCH_SIZE, CATCHUP_BATCH_SIZE,
        MAX_ACCEPTABLE_GAP, REALTIME_THRESHOLD] <;> omega

/-- C5: persisted progress never decreases.  On the jump-ahead path the
value written to `indexer_state` is strictly greater than the previous
`lastIndexedBlock`, and the `toBlock` subsequently persisted by a
successful batch is at least one more than it; on the normal path the
batch starts at `lastIndexedBlock + 1` and the persisted `toBlock` is
at least `lastIndexedBlock + 1`. -/
theorem monotonic_progress (currentBlock li : Int) (h0 : 0 ≤ li) :
    (MAX_ACCEPTABLE_GAP < currentBlock - li →
      ∃ p, (scheduleNetwork currentBlock (some li)).persistedJump = some p
        ∧ li < p
        ∧ p + 1 ≤ (scheduleNetwork currentBlock (some li)).toBlock)
    ∧ (¬ MAX_ACCEPTABLE_GAP < currentBlock - li →
        li + 1 ≤ currentBlock →
        (scheduleNetwork currentBlock (some li)).fromBlock = li + 1
        ∧ li + 1 ≤ (scheduleNetwork currentBlock (some li)).toBlock) := by
  constructor
  · intro h
    refine ⟨max 1 (currentBlock - RECENT_HISTORY_BLOCKS) - 1, ?_, ?_, ?_⟩
    · simp [scheduleNetwork, h]
    · simp only [RECENT_HISTORY_BLOCKS, MAX_ACCEPTABLE_GAP] at *
      omega
    · have hrt : ¬ currentBlock - li ≤ REALTIME_THRESHOLD := by
        simp only [MAX_ACCEPTABLE_GAP, REALTIME_THRESHOLD] at *
        omega
      simp [scheduleNetwork, h, hrt, RECENT_HISTORY_BLOCKS, MAX_ACCEPTABLE_GAP,
        REALTIME_THRESHOLD, CATCHUP_BATCH_SIZE] at *
      omega
  · intro h hle
    constructor
    · simp [scheduleNetwork, h]
    · by_cases hrt : currentBlock - li ≤ REALTIME_THRESHOLD <;>
        simp [scheduleNetwork, h, hrt, RECENT_HISTORY_BLOCKS, MAX_ACCEPTABLE_GAP,
          REALTIME_THRESHOLD, CATCHUP_BATCH_SIZE, REALTIME_BATCH_SIZE] at * <;>
        omega

/-- Witness for `monotonic_progress`: a jump-ahead at height 1000000
from `lastIndexedBlock = 400000`. -/
theorem monotonic_progress_w :
    (0 : Int) ≤ 400000 ∧
    ((MAX_ACCEPTABLE_GAP < (1000000 : Int) - 400000 →
      ∃ p, (scheduleNetwork 1000000 (some 400000)).persistedJump = some p
        ∧ (400000 : Int) < p
        ∧ p + 1 ≤ (scheduleNetwork 1000000 (some 400000)).toBlock)
    ∧ (¬ MAX_ACCEPTABLE_GAP < (1000000 : Int) - 400000 →
        (400000 : Int) + 1 ≤ 1000000 →
        (scheduleNetwork 1000000 (some 400000)).fromBlock = 400000 + 1
        ∧ (400000 : Int) + 1 ≤ (scheduleNetwork 1000000 (some 400000)).toBlock)) :=
  ⟨by norm_num, monotonic_progress 1000000 400000 (by norm_num)⟩

/-! ### Event-ingestion pipeline (src/services/blockchain.js) -/


/-- Association-list update-or-insert: the shared shape of a JS
`Map.set` (replace the entry at the key, else append) and of SQL
`INSERT .. ON CONFLICT (key) DO UPDATE` on a unique key column. -/
def assocSet {α : Type} (k : String) (v : α) : List (String × α) → List (String × α)
  | [] => [(k, v)]
  | p :: t => if p.1 == k then (k, v) :: t else p :: assocSet k v t

/-- Association-list lookup (`Map.get` / `SELECT .. WHERE key = $1`). -/
def assocGet {α : Type} (k : String) (l : List (String × α)) : Option α :=
  (l.find? (fun p => p.1 == k)).map Prod.snd

/-- Association-list removal (`Map.delete`). -/
def assocRemove {α : Type} (k : String) (l : List (String × α)) :
    List (String × α) :=
  l.filter (fun p => p.1 != k)

theorem assocGet_set {α : Type} (k : String) (v : α) (l : List (String × α)) :
    assocGet k (assocSet k v l) = some v := by
  induction l with
  | nil => simp [assocSet, assocGet, List.find?]
  | cons p t ih =>
      by_cases hp : (p.1 == k) = true
      · simp [assocSet, assocGet, hp, List.find?]
      · simp only [assocSet, hp, if_false, Bool.false_eq_true]
        unfold assocGet at ih ⊢
        simp only [List.find?, hp]
        exact ih

theorem assocGet_set_ne {α : Type} (k k2 : String) (v : α)
    (l : List (String × α)) (h : k ≠ k2) :
    assocGet k (assocSet k2 v l) = assocGet k l := by
  have hk2 : (k2 == k) = false := by simp [Ne.symm h]
  induction l with
  | nil => simp [assocSet, assocGet, List.find?, hk2]
  | cons p t ih =>
      by_cases hp : (p.1 == k2) = true
      · have hpk : (p.1 == k) = false := by
          have he : p.1 = k2 := by simpa using hp
          simp [he, Ne.symm h]
        simp [assocSet, assocGet, hp, hpk, hk2, List.find?]
      · simp only [assocSet, hp, if_false, Bool.false_eq_true]
        unfold assocGet at ih ⊢
        cases hk : (p.1 == k) with
        | false => simp only [List.find?, hk]; exact ih
        | true => simp [List.find?, hk]

theorem assocGet_remove {α : Type} (k : String) (l : List (String × α)) :
    assocGet k (assocRemove k l) = none := by
  unfold assocRemove assocGet
  induction l with
  | nil => simp
  | cons p t ih =>
      by_cases hp : (p.1 == k) = true
      · simp only [List.filter, bne, hp, Bool.not_true]
        exact ih
      · simp only [List.filter, bne, hp, Bool.not_false]
        simp only [List.find?, hp]
        exact ih

/-- Campaign details returned by the contract getter
`contract.campaigns(campaignId)` (amounts kept as raw fixed-point
integers at 8 decimals). -/
structure CampaignDetails where
  name : String
  description : String
  target : Int
  socialLink : String
  imageId : Nat
  creator : String
  ended : Bool
  totalStable : Int
deriving Repr, DecidableEq

/-- Row of the `campaigns` table. -/
structure CampaignRow where
  id : Nat
  name : String
  description : String
  target_amount : Int
  social_link : String
  image_id : Nat
  creator : String
  ended : Bool
  amount_raised : Int
  chain : String
  tx_hash : String
deriving Repr, DecidableEq

/-- Row of the `donations` table. -/
structure DonationRow where
  campaign_id : Nat
  donor : String
  amount : Int
  chain : String
  tx_hash : String
deriving Repr, DecidableEq

/-- Row of the `withdrawals` table. -/
structure WithdrawalRow where
  id : Nat
  user_address : String
  amount : Int
  token : String
  target_chain : Nat
  status : String
  chain : String
  tx_hash : String
  processed_tx_hash : Option String
deriving Repr, DecidableEq

/-- Row of the `transactions` audit table.  `user_address` is optional
because the Campaign Ended insert fills it from a scalar subquery that
may return no row. -/
structure TxRow where
  txType : String
  user_address : Option String
  campaign_id : Option Nat
  amount : Option Int
  token : Option String
  target_chain : Option Nat
  chain : String
  tx_hash : String
deriving Repr, DecidableEq

/-- The relational store touched by the ingestion pipeline.
`indexer_state` maps a chain name to its `last_indexed_block`. -/
structure Db where
  campaigns : List CampaignRow
  donations : List DonationRow
  withdrawals : List WithdrawalRow
  transactions : List TxRow
  indexer_state : List (String × Int)
deriving Repr, DecidableEq

/-- CampaignCreated event argument record. -/
structure CreatedEvent where
  campaignId : Nat
  creator : String
  transactionHash : String
deriving Repr, DecidableEq

/-- CampaignEdited event argument record. -/
structure EditedEvent where
  campaignId : Nat
  transactionHash : String
deriving Repr, DecidableEq

/-- CampaignEnded event argument record. -/
structure EndedEvent where
  campaignId : Nat
  finalStableValue : Int
  transactionHash : String
deriving Repr, DecidableEq

/-- DonationMade event argument record.  On the main chain the args are
(campaignId, donor, netUSDValue); remote chains add a donationId that
the pipeline never writes, so one record type serves both. -/
structure DonationEvent where
  campaignId : Nat
  donor : String
  netUSDValue : Int
  transactionHash : String
deriving Repr, DecidableEq

/-- WithdrawalRequested event argument record. -/
structure WReqEvent where
  requestId : Nat
  requester : String
  amount : Int
  token : String
  targetChainId : Nat
  transactionHash : String
deriving Repr, DecidableEq

/-- WithdrawalProcessed event argument record. -/
structure WProcEvent where
  requestId : Nat
  transactionHash : String
deriving Repr, DecidableEq

/-- Writes of one CampaignCreated event: `INSERT INTO campaigns .. ON
CONFLICT (id) DO NOTHING` from the contract state, then an audit row. -/
def applyCreatedEvent (net : String) (chainC : Nat → CampaignDetails)
    (e : CreatedEvent) (db : Db) : Db :=
  let c := chainC e.campaignId
  let db1 :=
    if db.campaigns.any (fun r => r.id == e.campaignId) then db
    else { db with campaigns := db.campaigns ++
      [{ id := e.campaignId, name := c.name, description := c.description,
         target_amount := c.target, social_link := c.socialLink,
         image_id := c.imageId, creator := c.creator, ended := c.ended,
         amount_raised := c.totalStable, chain := net,
         tx_hash := e.transactionHash }] }
  { db1 with transactions := db1.transactions ++
      [{ txType := "Campaign Created", user_address := some e.creator,
         campaign_id := some e.campaignId, amount := none, token := none,
         target_chain := none, chain := net, tx_hash := e.transactionHash }] }

/-- Writes of one CampaignEdited event: `UPDATE campaigns SET ..` from
the contract state, then an audit row (whose address is the creator as
reported by the contract). -/
def applyEditedEvent (net : String) (chainC : Nat → CampaignDetails)
    (e : EditedEvent) (db : Db) : Db :=
  let c := chainC e.campaignId
  { db with
    campaigns := db.campaigns.map (fun r =>
      if r.id == e.campaignId then
        { r with name := c.name, description := c.description,
                 target_amount := c.target, social_link := c.socialLink,
                 image_id := c.imageId }
      else r)
    transactions := db.transactions ++
      [{ txType := "Campaign Edited", user_address := some c.creator,
         campaign_id := some e.campaignId, amount := none, token := none,
         target_chain := none, chain := net, tx_hash := e.transactionHash }] }

/-- Writes of one CampaignEnded event: mark ended, overwrite
`amount_raised` with the final stable value, then an audit row whose
address comes from the `campaigns` row (scalar subquery). -/
def applyEndedEvent (net : String) (e : EndedEvent) (db : Db) : Db :=
  let campaigns1 := db.campaigns.map (fun r =>
    if r.id == e.campaignId then
      { r with ended := true, amount_raised := e.finalStableValue }
    else r)
  let creator := (campaigns1.find? (fun r => r.id == e.campaignId)).map
    (fun r => r.creator)
  { db with
    campaigns := campaigns1
    transactions := db.transactions ++
      [{ txType := "Campaign Ended", user_address := creator,
         campaign_id := some e.campaignId, amount := some e.finalStableValue,
         token := none, target_chain := none, chain := net,
         tx_hash := e.transactionHash }] }

/-- Writes of one DonationMade event: an unconditional `donations`
insert, an additive `amount_raised` update and an audit row. -/
def applyDonationEvent (net : String) (e : DonationEvent) (db : Db) : Db :=
  { db with
    donations := db.donations ++
      [{ campaign_id := e.campaignId, donor := e.donor,
         amount := e.netUSDValue, chain := net,
         tx_hash := e.transactionHash }]
    campaigns := db.campaigns.map (fun r =>
      if r.id == e.campaignId then
        { r with amount_raised := r.amount_raised + e.netUSDValue }
      else r)
    transactions := db.transactions ++
      [{ txType := "Donation", user_address := some e.donor,
         campaign_id := some e.campaignId, amount := some e.netUSDValue,
         token := none, target_chain := none, chain := net,
         tx_hash := e.transactionHash }] }

/-- Writes of one WithdrawalRequested event: `INSERT .. ON CONFLICT (id)
DO NOTHING` plus an audit row. -/
def applyWReqEvent (net : String) (e : WReqEvent) (db : Db) : Db :=
  let db1 :=
    if db.withdrawals.any (fun r => r.id == e.requestId) then db
    else { db with withdrawals := db.withdrawals ++
      [{ id := e.requestId, user_address := e.requester, amount := e.amount,
         token := e.token, target_chain := e.targetChainId,
         status := "Requested", chain := net,
         tx_hash := e.transactionHash, processed_tx_hash := none }] }
  { db1 with transactions := db1.transactions ++
      [{ txType := "Withdrawal Requested", user_address := some e.requester,
         amount := some e.amount, token := some e.token,
         target_chain := some e.targetChainId, campaign_id := none,
         chain := net, tx_hash := e.transactionHash }] }

/-- Writes of one WithdrawalProcessed event: the row is first selected;
if absent the event is skipped entirely, otherwise the status flips to
Processed and an audit row is written from the previously selected
data. -/
def applyWProcEvent (net : String) (e : WProcEvent) (db : Db) : Db :=
  match db.withdrawals.find? (fun r => r.id == e.requestId) with
  | none => db
  | some w =>
      { db with
        withdrawals := db.withdrawals.map (fun r =>
          if r.id == e.requestId then
            { r with status := "Processed",
                     processed_tx_hash := some e.transactionHash }
          else r)
        transactions := db.transactions ++
          [{ txType := "Withdrawal Processed",
             user_address := some w.user_address, amount := some w.amount,
             token := some w.token, target_chain := some w.target_chain,
             campaign_id := none, chain := net,
             tx_hash := e.transactionHash }] }

/-- Committed writes of `indexCampaignEvents`: the created loop, then the
edited loop, then the ended loop. -/
def campaignPhase (net : String) (chainC : Nat → CampaignDetails)
    (created : List CreatedEvent) (edited : List EditedEvent)
    (ended : List EndedEvent) (db : Db) : Db :=
  (ended.foldl (fun d e => applyEndedEvent net e d)
    (edited.foldl (fun d e => applyEditedEvent net chainC e d)
      (created.foldl (fun d e => applyCreatedEvent net chainC e d) db)))

/-- Committed writes of `indexDonationEvents`. -/
def donationPhase (net : String) (es : List DonationEvent) (db : Db) : Db :=
  es.foldl (fun d e => applyDonationEvent net e d) db

/-- Committed writes of `indexWithdrawalEvents`: the request loop, then
the processed loop. -/
def withdrawalPhase (net : String) (reqs : List WReqEvent)
    (procs : List WProcEvent) (db : Db) : Db :=
  procs.foldl (fun d e => applyWProcEvent net e d)
    (reqs.foldl (fun d e => applyWReqEvent net e d) db)

/-- Function `indexCampaignEvents`: a no-op off the main chain,
otherwise one `BEGIN .. COMMIT` block around the three loops;
`fail = true` injects an exception inside the block (ROLLBACK, error
rethrown, database unchanged). -/
def indexCampaignEvents (isMain : Bool) (net : String)
    (chainC : Nat → CampaignDetails) (created : List CreatedEvent)
    (edited : List EditedEvent) (ended : List EndedEvent) (fail : Bool)
    (db : Db) : Except Db Db :=
  if !isMain then .ok db
  else if fail then .error db
  else .ok (campaignPhase net chainC created edited ended db)

/-- Function `indexDonationEvents`: one transaction around the donation
loop, run for every chain. -/
def indexDonationEvents (net : String) (es : List DonationEvent)
    (fail : Bool) (db : Db) : Except Db Db :=
  if fail then .error db
  else .ok (donationPhase net es db)

/-- Function `indexWithdrawalEvents`: a no-op off the main chain,
otherwise one transaction around the request and processed loops. -/
def indexWithdrawalEvents (isMain : Bool) (net : String)
    (reqs : List WReqEvent) (procs : List WProcEvent) (fail : Bool)
    (db : Db) : Except Db Db :=
  if !isMain then .ok db
  else if fail then .error db
  else .ok (withdrawalPhase net reqs procs db)

/-- Upsert of the progress row: `INSERT INTO indexer_state .. ON
CONFLICT (chain) DO UPDATE SET last_indexed_block = $2`. -/
def upsertIndexerState (net : String) (toBlock : Int) (db : Db) : Db :=
  { db with indexer_state := assocSet net toBlock db.indexer_state }

/-- Stored `last_indexed_block` of a chain. -/
def lookupIndexerState (db : Db) (net : String) : Option Int :=
  assocGet net db.indexer_state

/-- Function `indexNetwork`: campaign events (main chain only), then
donation events, then withdrawal events (main chain only), each in its
own transaction, and finally the progress upsert to `toBlock` as a
separate write.  Any error propagates immediately, carrying the
database with every commit made so far. -/
def indexNetwork (isMain : Bool) (net : String)
    (chainC : Nat → CampaignDetails) (created : List CreatedEvent)
    (edited : List EditedEvent) (ended : List EndedEvent)
    (des : List DonationEvent) (reqs : List WReqEvent)
    (procs : List WProcEvent) (toBlock : Int)
    (failC failD failW failP : Bool) (db : Db) : Except Db Db :=
  match (if isMain then indexCampaignEvents isMain net chainC created edited ended failC db else .ok db) with
  | .error d => .error d
  | .ok d1 =>
      match indexDonationEvents net des failD d1 with
      | .error d => .error d
      | .ok d2 =>
          match (if isMain then indexWithdrawalEvents isMain net reqs procs failW d2 else .ok d2) with
          | .error d => .error d
          | .ok d3 =>
              if failP then .error d3
              else .ok (upsertIndexerState net toBlock d3)

theorem applyCreatedEvent_state (net : String) (chainC : Nat → CampaignDetails)
    (e : CreatedEvent) (db : Db) :
    (applyCreatedEvent net chainC e db).indexer_state = db.indexer_state := by
  unfold applyCreatedEvent
  by_cases h : db.campaigns.any (fun r => r.id == e.campaignId) <;> simp [h]

theorem applyEditedEvent_state (net : String) (chainC : Nat → CampaignDetails)
    (e : EditedEvent) (db : Db) :
    (applyEditedEvent net chainC e db).indexer_state = db.indexer_state := rfl

theorem applyEndedEvent_state (net : String) (e : EndedEvent) (db : Db) :
    (applyEndedEvent net e db).indexer_state = db.indexer_state := rfl

theorem applyDonationEvent_state (net : String) (e : DonationEvent) (db : Db) :
    (applyDonationEvent net e db).indexer_state = db.indexer_state := rfl

theorem applyWReqEvent_state (net : String) (e : WReqEvent) (db : Db) :
    (applyWReqEvent net e db).indexer_state = db.indexer_state := by
  unfold applyWReqEvent
  by_cases h : db.withdrawals.any (fun r => r.id == e.requestId) <;> simp [h]

theorem applyWProcEvent_state (net : String) (e : WProcEvent) (db : Db) :
    (applyWProcEvent net e db).indexer_state = db.indexer_state := by
  unfold applyWProcEvent
  cases db.withdrawals.find? (fun r => r.id == e.requestId) <;> rfl

theorem foldl_state_invariant {β : Type} (f : Db → β → Db)
    (hf : ∀ d e, (f d e).indexer_state = d.indexer_state)
    (es : List β) (db : Db) :
    (es.foldl f db).indexer_state = db.indexer_state := by
  induction es generalizing db with
  | nil => rfl
  | cons e t ih => rw [List.foldl_cons, ih, hf]

theorem campaignPhase_state (net : String) (chainC : Nat → CampaignDetails)
    (created : List CreatedEvent) (edited : List EditedEvent)
    (ended : List EndedEvent) (db : Db) :
    (campaignPhase net chainC created edited ended db).indexer_state =
      db.indexer_state := by
  unfold campaignPhase
  rw [foldl_state_invariant _ (fun d e => applyEndedEvent_state net e d),
    foldl_state_invariant _ (fun d e => applyEditedEvent_state net chainC e d),
    foldl_state_invariant _ (fun d e => applyCreatedEvent_state net chainC e d)]

theorem donationPhase_state (net : String) (es : List DonationEvent) (db : Db) :
    (donationPhase net es db).indexer_state = db.indexer_state :=
  foldl_state_invariant _ (fun d e => applyDonationEvent_state net e d) es db

theorem withdrawalPhase_state (net : String) (reqs : List WReqEvent)
    (procs : List WProcEvent) (db : Db) :
    (withdrawalPhase net reqs procs db).indexer_state = db.indexer_state := by
  unfold withdrawalPhase
  rw [foldl_state_invariant _ (fun d e => applyWProcEvent_state net e d),
    foldl_state_invariant _ (fun d e => applyWReqEvent_state net e d)]

/-- C1 counterexample: on the main chain, with one CampaignCreated event
in the range and an exception during the donation block, `indexNetwork`
propagates an error whose database state already contains the committed
campaign row and audit row — the campaign block's writes were NOT rolled
back by the donation block's failure (they were separate transactions),
while `indexer_state` is still untouched.  Under the claim the error
state would have to equal the initial database. -/
theorem indexNetwork_not_single_transaction_cx :
    indexNetwork true "polygon"
      (fun _ => { name := "n", description := "d", target := 5,
                  socialLink := "s", imageId := 7, creator := "0xc",
                  ended := false, totalStable := 0 })
      [{ campaignId := 1, creator := "0xa", transactionHash := "0xt1" }]
      [] [] [] [] [] 10 false true false false
      { campaigns := [], donations := [], withdrawals := [],
        transactions := [], indexer_state := [] }
    = .error
      { campaigns :=
          [{ id := 1, name := "n", description := "d",
             target_amount := 5, social_link := "s", image_id := 7,
             creator := "0xc", ended := false, amount_raised := 0,
             chain := "polygon", tx_hash := "0xt1" }],
        donations := [], withdrawals := [],
        transactions :=
          [{ txType := "Campaign Created",
             user_address := some "0xa", campaign_id := some 1, amount := none,
             token := none, target_chain := none, chain := "polygon",
             tx_hash := "0xt1" }],
        indexer_state := [] } := rfl

/-- C1 as amended: each event-kind block is individually atomic (an
exception inside it rolls that block back and rethrows), the progress
row is advanced to `toBlock` exactly when every block and the progress
write succeed, and any failure leaves `indexer_state` unchanged — but a
failing block does not undo the commits of the blocks before it: with a
campaign block that committed and a donation block that failed, the
propagated state still carries the campaign writes. -/
theorem indexNetwork_per_phase_atomicity (isMain : Bool) (net : String)
    (chainC : Nat → CampaignDetails) (created : List CreatedEvent)
    (edited : List EditedEvent) (ended : List EndedEvent)
    (des : List DonationEvent) (reqs : List WReqEvent)
    (procs : List WProcEvent) (toBlock : Int)
    (failC failD failW failP : Bool) (db : Db) :
    (indexCampaignEvents isMain net chainC created edited ended true db =
      if isMain then .error db else .ok db)
    ∧ indexDonationEvents net des true db = .error db
    ∧ (indexWithdrawalEvents isMain net reqs procs true db =
      if isMain then .error db else .ok db)
    ∧ (∀ d, indexNetwork isMain net chainC created edited ended des reqs
        procs toBlock failC failD failW failP db = .error d →
        lookupIndexerState d net = lookupIndexerState db net)
    ∧ (∀ d, indexNetwork isMain net chainC created edited ended des reqs
        procs toBlock failC failD failW failP db = .ok d →
        lookupIndexerState d net = some toBlock)
    ∧ (isMain = true → failC = false → failD = true →
        indexNetwork isMain net chainC created edited ended des reqs
          procs toBlock failC failD failW failP db =
        .error (campaignPhase net chainC created edited ended db)) := by
  refine ⟨?_, ?_, ?_, ?_, ?_, ?_⟩
  · cases isMain <;> simp [indexCampaignEvents]
  · simp [indexDonationEvents]
  · cases isMain <;> simp [indexWithdrawalEvents]
  · intro d hd
    cases isMain <;> cases failC <;> cases failD <;> cases failW <;>
      cases failP <;>
      simp_all [indexNetwork, indexCampaignEvents, indexDonationEvents,
        indexWithdrawalEvents, lookupIndexerState] <;>
      (subst hd
       simp [campaignPhase_state, donationPhase_state, withdrawalPhase_state])
  · intro d hd
    cases isMain <;> cases failC <;> cases failD <;> cases failW <;>
      cases failP <;>
      simp_all [indexNetwork, indexCampaignEvents, indexDonationEvents,
        indexWithdrawalEvents, upsertIndexerState, lookupIndexerState] <;>
      (subst hd
       simp [assocGet_set])
  · intro h1 h2 h3
    subst h1; subst h2; subst h3
    simp [indexNetwork, indexCampaignEvents, indexDonationEvents]

/-- Witness for `indexNetwork_per_phase_atomicity` at a concrete
instance (main chain, one created event, donation block failing). -/
theorem indexNetwork_per_phase_atomicity_w :
    (indexCampaignEvents true "polygon"
        (fun _ => { name := "n", description := "d", target := 5,
                    socialLink := "s", imageId := 7, creator := "0xc",
                    ended := false, totalStable := 0 })
        [{ campaignId := 1, creator := "0xa", transactionHash := "0xt1" }]
        [] [] true
        { campaigns := [], donations := [], withdrawals := [],
          transactions := [], indexer_state := [] } =
      if true then
        .error { campaigns := [], donations := [], withdrawals := [],
                 transactions := [], indexer_state := [] }
      else
        .ok { campaigns := [], donations := [], withdrawals := [],
              transactions := [], indexer_state := [] })
    ∧ indexDonationEvents "polygon" [] true
        { campaigns := [], donations := [], withdrawals := [],
          transactions := [], indexer_state := [] } =
      .error { campaigns := [], donations := [], withdrawals := [],
               transactions := [], indexer_state := [] }
    ∧ (indexWithdrawalEvents true "polygon" [] [] true
        { campaigns := [], donations := [], withdrawals := [],
          transactions := [], indexer_state := [] } =
      if true then
        .error { campaigns := [], donations := [], withdrawals := [],
                 transactions := [], indexer_state := [] }
      else
        .ok { campaigns := [], donations := [], withdrawals := [],
              transactions := [], indexer_state := [] })
    ∧ (∀ d, indexNetwork true "polygon"
        (fun _ => { name := "n", description := "d", target := 5,
                    socialLink := "s", imageId := 7, creator := "0xc",
                    ended := false, totalStable := 0 })
        [{ campaignId := 1, creator := "0xa", transactionHash := "0xt1" }]
        [] [] [] [] [] 10 false true false false
        { campaigns := [], donations := [], withdrawals := [],
          transactions := [], indexer_state := [] } = .error d →
        lookupIndexerState d "polygon" =
          lookupIndexerState
            { campaigns := [], donations := [], withdrawals := [],
              transactions := [], indexer_state := [] } "polygon")
    ∧ (∀ d, indexNetwork true "polygon"
        (fun _ => { name := "n", description := "d", target := 5,
                    socialLink := "s", imageId := 7, creator := "0xc",
                    ended := false, totalStable := 0 })
        [{ campaignId := 1, creator := "0xa", transactionHash := "0xt1" }]
        [] [] [] [] [] 10 false true false false
        { campaigns := [], donations := [], withdrawals := [],
          transactions := [], indexer_state := [] } = .ok d →
        lookupIndexerState d "polygon" = some 10)
    ∧ (true = true → false = false → true = true →
        indexNetwork true "polygon"
          (fun _ => { name := "n", description := "d", target := 5,
                      socialLink := "s", imageId := 7, creator := "0xc",
                      ended := false, totalStable := 0 })
          [{ campaignId := 1, creator := "0xa", transactionHash := "0xt1" }]
          [] [] [] [] [] 10 false true false false
          { campaigns := [], donations := [], withdrawals := [],
            transactions := [], indexer_state := [] } =
        .error (campaignPhase "polygon"
          (fun _ => { name := "n", description := "d", target := 5,
                      socialLink := "s", imageId := 7, creator := "0xc",
                      ended := false, totalStable := 0 })
          [{ campaignId := 1, creator := "0xa", transactionHash := "0xt1" }]
          [] []
          { campaigns := [], donations := [], withdrawals := [],
            transactions := [], indexer_state := [] })) :=
  indexNetwork_per_phase_atomicity true "polygon"
    (fun _ => { name := "n", description := "d", target := 5,
                socialLink := "s", imageId := 7, creator := "0xc",
                ended := false, totalStable := 0 })
    [{ campaignId := 1, creator := "0xa", transactionHash := "0xt1" }]
    [] [] [] [] [] 10 false true false false
    { campaigns := [], donations := [], withdrawals := [],
      transactions := [], indexer_state := [] }

/-- C9: a WithdrawalProcessed event whose requestId matches no
`withdrawals` row is a complete no-op — no withdrawal update and no
audit row — and the enclosing transaction still commits. -/
theorem withdrawal_processed_unmatched_noop (net : String) (e : WProcEvent)
    (db : Db)
    (h : db.withdrawals.find? (fun r => r.id == e.requestId) = none) :
    applyWProcEvent net e db = db
    ∧ indexWithdrawalEvents true net [] [e] false db = .ok db := by
  have h1 : applyWProcEvent net e db = db := by
    unfold applyWProcEvent
    rw [h]
  refine ⟨h1, ?_⟩
  simp [indexWithdrawalEvents, withdrawalPhase, h1]

/-- Witness for `withdrawal_processed_unmatched_noop`: a store holding
only request id 3 receives a processed event for id 7. -/
theorem withdrawal_processed_unmatched_noop_w :
    (applyWProcEvent "polygon" { requestId := 7, transactionHash := "0xp" }
      { campaigns := [], donations := [],
        withdrawals :=
          [{ id := 3, user_address := "0xu", amount := 40,
             token := "0xt", target_chain := 137, status := "Requested",
             chain := "polygon", tx_hash := "0xr",
             processed_tx_hash := none }],
        transactions := [], indexer_state := [] } =
      { campaigns := [], donations := [],
        withdrawals :=
          [{ id := 3, user_address := "0xu", amount := 40,
             token := "0xt", target_chain := 137, status := "Requested",
             chain := "polygon", tx_hash := "0xr",
             processed_tx_hash := none }],
        transactions := [], indexer_state := [] })
    ∧ indexWithdrawalEvents true "polygon" []
        [{ requestId := 7, transactionHash := "0xp" }] false
        { campaigns := [], donations := [],
          withdrawals :=
            [{ id := 3, user_address := "0xu", amount := 40,
               token := "0xt", target_chain := 137, status := "Requested",
               chain := "polygon", tx_hash := "0xr",
               processed_tx_hash := none }],
          transactions := [], indexer_state := [] } =
      .ok
        { campaigns := [], donations := [],
          withdrawals :=
            [{ id := 3, user_address := "0xu", amount := 40,
               token := "0xt", target_chain := 137, status := "Requested",
               chain := "polygon", tx_hash := "0xr",
               processed_tx_hash := none }],
          transactions := [], indexer_state := [] } :=
  withdrawal_processed_unmatched_noop "polygon"
    { requestId := 7, transactionHash := "0xp" }
    { campaigns := [], donations := [],
      withdrawals :=
        [{ id := 3, user_address := "0xu", amount := 40,
           token := "0xt", target_chain := 137, status := "Requested",
           chain := "polygon", tx_hash := "0xr",
           processed_tx_hash := none }],
      transactions := [], indexer_state := [] } rfl

/-- Stored `amount_raised` total over the campaign rows with a given id
(the table keeps ids unique, so this is that row's value). -/
def raisedSum (db : Db) (cid : Nat) : Int :=
  ((db.campaigns.filter (fun r => r.id == cid)).map
    (fun r => r.amount_raised)).sum

/-- Number of campaign rows with a given id. -/
def campaignRowCount (db : Db) (cid : Nat) : Nat :=
  (db.campaigns.filter (fun r => r.id == cid)).length

theorem sum_map_update (l : List CampaignRow) (cid : Nat) (amt : Int) :
    (((l.map (fun r =>
        if r.id == cid then { r with amount_raised := r.amount_raised + amt }
        else r)).filter (fun r => r.id == cid)).map
      (fun r => r.amount_raised)).sum
    = ((l.filter (fun r => r.id == cid)).map (fun r => r.amount_raised)).sum
      + ((l.filter (fun r => r.id == cid)).length : Int) * amt := by
  induction l with
  | nil => simp
  | cons r t ih =>
      by_cases h : (r.id == cid) = true
      · simp only [List.map_cons, h, if_true, List.filter_cons_of_pos,
          List.sum_cons, List.length_cons, ih]
        push_cast
        ring
      · simp only [List.map_cons, h, if_false, Bool.false_eq_true]
        rw [List.filter_cons_of_neg (by simp [h]),
          List.filter_cons_of_neg (by simp [h]), ih]

theorem applyCreatedEvent_campaigns_existing (net : String)
    (chainC : Nat → CampaignDetails) (e : CreatedEvent) (db : Db)
    (h : db.campaigns.any (fun r => r.id == e.campaignId) = true) :
    (applyCreatedEvent net chainC e db).campaigns = db.campaigns := by
  unfold applyCreatedEvent
  simp [h]

theorem applyDonationEvent_donations (net : String) (e : DonationEvent)
    (db : Db) :
    (applyDonationEvent net e db).donations = db.donations ++
      [{ campaign_id := e.campaignId, donor := e.donor,
         amount := e.netUSDValue, chain := net,
         tx_hash := e.transactionHash }] := rfl

theorem donationPhase_donations (net : String) (es : List DonationEvent)
    (db : Db) :
    (donationPhase net es db).donations = db.donations ++
      es.map (fun e =>
        { campaign_id := e.campaignId, donor := e.donor,
          amount := e.netUSDValue, chain := net,
          tx_hash := e.transactionHash }) := by
  induction es generalizing db with
  | nil => simp [donationPhase]
  | cons e t ih =>
      simp only [donationPhase, List.foldl_cons, List.map_cons] at ih ⊢
      rw [ih, applyDonationEvent_donations, List.append_assoc]
      rfl

/-- C2 counterexample: re-running the donation block of the ingestion
pipeline over the very same single-donation range inserts a second,
identical `donations` row and adds the 500-unit amount to the
campaign's `amount_raised` a second time (500 becomes 1000): the
donation insert has no conflict guard and the accumulation is additive. -/
theorem indexDonationEvents_rerun_duplicates_cx :
    (indexDonationEvents "polygon"
      [{ campaignId := 1, donor := "0xd", netUSDValue := 500,
         transactionHash := "0xt1" }] false
      { campaigns :=
          [{ id := 1, name := "n", description := "d", target_amount := 5,
             social_link := "s", image_id := 7, creator := "0xc",
             ended := false, amount_raised := 0, chain := "polygon",
             tx_hash := "0xt0" }],
        donations := [], withdrawals := [], transactions := [],
        indexer_state := [] }
    = .ok
      { campaigns :=
          [{ id := 1, name := "n", description := "d", target_amount := 5,
             social_link := "s", image_id := 7, creator := "0xc",
             ended := false, amount_raised := 500, chain := "polygon",
             tx_hash := "0xt0" }],
        donations :=
          [{ campaign_id := 1, donor := "0xd", amount := 500,
             chain := "polygon", tx_hash := "0xt1" }],
        withdrawals := [],
        transactions :=
          [{ txType := "Donation", user_address := some "0xd",
             campaign_id := some 1, amount := some 500, token := none,
             target_chain := none, chain := "polygon",
             tx_hash := "0xt1" }],
        indexer_state := [] })
    ∧ (indexDonationEvents "polygon"
      [{ campaignId := 1, donor := "0xd", netUSDValue := 500,
         transactionHash := "0xt1" }] false
      { campaigns :=
          [{ id := 1, name := "n", description := "d", target_amount := 5,
             social_link := "s", image_id := 7, creator := "0xc",
             ended := false, amount_raised := 500, chain := "polygon",
             tx_hash := "0xt0" }],
        donations :=
          [{ campaign_id := 1, donor := "0xd", amount := 500,
             chain := "polygon", tx_hash := "0xt1" }],
        withdrawals := [],
        transactions :=
          [{ txType := "Donation", user_address := some "0xd",
             campaign_id := some 1, amount := some 500, token := none,
             target_chain := none, chain := "polygon",
             tx_hash := "0xt1" }],
        indexer_state := [] }
    = .ok
      { campaigns :=
          [{ id := 1, name := "n", description := "d", target_amount := 5,
             social_link := "s", image_id := 7, creator := "0xc",
             ended := false, amount_raised := 1000, chain := "polygon",
             tx_hash := "0xt0" }],
        donations :=
          [{ campaign_id := 1, donor := "0xd", amount := 500,
             chain := "polygon", tx_hash := "0xt1" },
           { campaign_id := 1, donor := "0xd", amount := 500,
             chain := "polygon", tx_hash := "0xt1" }],
        withdrawals := [],
        transactions :=
          [{ txType := "Donation", user_address := some "0xd",
             campaign_id := some 1, amount := some 500, token := none,
             target_chain := none, chain := "polygon",
             tx_hash := "0xt1" },
           { txType := "Donation", user_address := some "0xd",
             campaign_id := some 1, amount := some 500, token := none,
             target_chain := none, chain := "polygon",
             tx_hash := "0xt1" }],
        indexer_state := [] }) :=
  ⟨rfl, rfl⟩

/-- C2 as amended: re-running the pipeline over an already-applied range
creates no duplicate Campaign rows (the creation insert is
insert-or-ignore on the id), but every run of the donation block appends
a fresh `donations` row per event — so a re-run does duplicate donation
rows — and every application of a donation event adds its amount to the
parent campaign's `amount_raised` again. -/
theorem ingestion_rerun_effects (net : String)
    (chainC : Nat → CampaignDetails) (created : List CreatedEvent)
    (es : List DonationEvent) (db : Db)
    (hc : ∀ e ∈ created,
      db.campaigns.any (fun r => r.id == e.campaignId) = true) :
    (created.foldl (fun d e => applyCreatedEvent net chainC e d) db).campaigns
      = db.campaigns
    ∧ (donationPhase net es db).donations = db.donations ++
        es.map (fun e =>
          { campaign_id := e.campaignId, donor := e.donor,
            amount := e.netUSDValue, chain := net,
            tx_hash := e.transactionHash })
    ∧ (donationPhase net es (donationPhase net es db)).donations =
        db.donations ++
        es.map (fun e =>
          { campaign_id := e.campaignId, donor := e.donor,
            amount := e.netUSDValue, chain := net,
            tx_hash := e.transactionHash }) ++
        es.map (fun e =>
          { campaign_id := e.campaignId, donor := e.donor,
            amount := e.netUSDValue, chain := net,
            tx_hash := e.transactionHash })
    ∧ ∀ e : DonationEvent,
        raisedSum (applyDonationEvent net e db) e.campaignId =
          raisedSum db e.campaignId +
            (campaignRowCount db e.campaignId : Int) * e.netUSDValue := by
  refine ⟨?_, donationPhase_donations net es db, ?_, ?_⟩
  · induction created generalizing db with
    | nil => rfl
    | cons e t ih =>
        rw [List.foldl_cons]
        have he := hc e (List.mem_cons_self e t)
        have hcamp := applyCreatedEvent_campaigns_existing net chainC e db he
        rw [ih (applyCreatedEvent net chainC e db)
          (fun x hx => by rw [hcamp]; exact hc x (List.mem_cons_of_mem e hx)),
          hcamp]
  · rw [donationPhase_donations, donationPhase_donations]
  · intro e
    unfold raisedSum campaignRowCount applyDonationEvent
    exact sum_map_update db.campaigns e.campaignId e.netUSDValue

/-- Witness for `ingestion_rerun_effects`: a store already holding
campaign 1 receives the same created and donation events again. -/
theorem ingestion_rerun_effects_w :
    (([{ campaignId := 1, creator := "0xa",
         transactionHash := "0xt1" }] : List CreatedEvent).foldl
      (fun d e => applyCreatedEvent "polygon"
        (fun _ => { name := "n", description := "d", target := 5,
                    socialLink := "s", imageId := 7, creator := "0xc",
                    ended := false, totalStable := 0 }) e d)
      { campaigns :=
          [{ id := 1, name := "n", description := "d", target_amount := 5,
             social_link := "s", image_id := 7, creator := "0xc",
             ended := false, amount_raised := 0, chain := "polygon",
             tx_hash := "0xt0" }],
        donations := [], withdrawals := [], transactions := [],
        indexer_state := [] }).campaigns
      = [{ id := 1, name := "n", description := "d", target_amount := 5,
           social_link := "s", image_id := 7, creator := "0xc",
           ended := false, amount_raised := 0, chain := "polygon",
           tx_hash := "0xt0" }]
    ∧ ∀ e : DonationEvent,
        raisedSum (applyDonationEvent "polygon" e
          { campaigns :=
              [{ id := 1, name := "n", description := "d",
                 target_amount := 5, social_link := "s", image_id := 7,
                 creator := "0xc", ended := false, amount_raised := 0,
                 chain := "polygon", tx_hash := "0xt0" }],
            donations := [], withdrawals := [], transactions := [],
            indexer_state := [] }) e.campaignId =
          raisedSum
            { campaigns :=
                [{ id := 1, name := "n", description := "d",
                   target_amount := 5, social_link := "s", image_id := 7,
                   creator := "0xc", ended := false, amount_raised := 0,
                   chain := "polygon", tx_hash := "0xt0" }],
              donations := [], withdrawals := [], transactions := [],
              indexer_state := [] } e.campaignId +
            (campaignRowCount
              { campaigns :=
                  [{ id := 1, name := "n", description := "d",
                     target_amount := 5, social_link := "s", image_id := 7,
                     creator := "0xc", ended := false, amount_raised := 0,
                     chain := "polygon", tx_hash := "0xt0" }],
                donations := [], withdrawals := [], transactions := [],
                indexer_state := [] } e.campaignId : Int) * e.netUSDValue := by
  have h := ingestion_rerun_effects "polygon"
    (fun _ => { name := "n", description := "d", target := 5,
                socialLink := "s", imageId := 7, creator := "0xc",
                ended := false, totalStable := 0 })
    [{ campaignId := 1, creator := "0xa", transactionHash := "0xt1" }]
    ([] : List DonationEvent)
    { campaigns :=
        [{ id := 1, name := "n", description := "d", target_amount := 5,
           social_link := "s", image_id := 7, creator := "0xc",
           ended := false, amount_raised := 0, chain := "polygon",
           tx_hash := "0xt0" }],
      donations := [], withdrawals := [], transactions := [],
      indexer_state := [] }
    (by intro e he; simp at he; subst he; rfl)
  exact ⟨h.1, h.2.2.2⟩

/-! ### Donation relay and transaction lifecycle tracker
(src/services/directDonationMonitor.js) -/

/-- CONFIG.GAS_RESERVE_PERCENT. -/
def GAS_RESERVE_PERCENT : Int := 35

/-- CONFIG.TX_TIMEOUT_MINUTES (stuck threshold). -/
def TX_TIMEOUT_MINUTES : Int := 15

/-- CONFIG.TX_FINAL_TIMEOUT_MINUTES (treat-as-lost threshold). -/
def TX_FINAL_TIMEOUT_MINUTES : Int := 30

/-- CONFIG.STUCK_TX_RETRY_COUNT. -/
def STUCK_TX_RETRY_COUNT : Nat := 3

/-- CONFIG.STUCK_TX_GAS_BOOST. -/
def STUCK_TX_GAS_BOOST : Int := 150

/-- Balance floor used by `processPendingDonations`
(`ethers.parseEther("0.2")`, in wei). -/
def PROCESS_MIN_BALANCE_WEI : Int := 200000000000000000

/-- Status column of a `direct_donations` row. -/
inductive DStatus where
  | pending
  | processing
  | completed
  | failed
deriving Repr, DecidableEq

/-- Row of the `direct_donations` table.  `created_at` and
`processed_at` are epoch seconds. -/
structure DirectDonation where
  id : Nat
  campaign_id : Nat
  wallet_address : String
  amount : Int
  status : DStatus
  source_tx_hash : String
  contract_tx_hash : Option String
  created_at : Int
  processed_at : Option Int
deriving Repr, DecidableEq

/-- Transaction receipt as consumed by the monitor (`receipt.status`,
1 = success). -/
structure Receipt where
  status : Nat
deriving Repr, DecidableEq

/-- Reconciliation of one selected row in `updateTransactionStatus`,
given the fetched receipt (`none` both when the transaction is not yet
mined and when the receipt fetch failed, which the code silences to
null): success receipt completes, failure receipt fails, no receipt
fails only past the final timeout, otherwise the row is untouched. -/
def updateTransactionStatusRow (now : Int) (rcpt : Option Receipt)
    (d : DirectDonation) : DirectDonation :=
  match rcpt with
  | some r =>
      if r.status == 1 then
        { d with status := DStatus.completed, processed_at := some now }
      else
        { d with status := DStatus.failed, processed_at := some now }
  | none =>
      if TX_FINAL_TIMEOUT_MINUTES * 60 < now - d.created_at then
        { d with status := DStatus.failed, processed_at := some now }
      else d

/-- Per-row effect of `updateTransactionStatus`: the SQL selection is
`status = processing AND contract_tx_hash IS NOT NULL`; rows outside
the selection are untouched. -/
def updateStatusOne (now : Int) (getReceipt : String → Option Receipt)
    (d : DirectDonation) : DirectDonation :=
  match d.contract_tx_hash with
  | some h =>
      if d.status == DStatus.processing then
        updateTransactionStatusRow now (getReceipt h) d
      else d
  | none => d

/-- Function `updateTransactionStatus` over the whole table. -/
def updateTransactionStatus (now : Int)
    (getReceipt : String → Option Receipt)
    (rows : List DirectDonation) : List DirectDonation :=
  rows.map (updateStatusOne now getReceipt)

/-- Chain-side circumstances seen by one iteration of the
`processPendingDonations` loop: the wallet's pending and confirmed
nonce counts, the re-read balance (wei), whether the RPC sequence
(gas estimate, fee data, submission) succeeds, and the hash the
submitted transaction would get. -/
structure RelayEnv where
  pendingTxCount : Nat
  confirmedTxCount : Nat
  balance : Int
  rpcOk : Bool
  txHash : String
deriving Repr, DecidableEq

/-- Result of one `processPendingDonations` iteration: the row as left
in the store, the value of the `donate(..)` call if one was submitted,
and the `(hash, donationId)` pair registered with the tracker if any. -/
structure RelayStepResult where
  record : DirectDonation
  submittedValue : Option Int
  tracked : Option (String × Nat)
deriving Repr, DecidableEq

/-- One iteration of the `processPendingDonations` loop for the row
`d`.  The re-read of the row's status is `d.status` itself (the model
is single-threaded).  Skips leave the row untouched; a non-positive
donation amount marks the row failed without submitting; an RPC
exception anywhere in the estimate/fee/submit sequence marks it failed;
a successful submission moves it to processing and stores the hash.
`reservePercent` is CONFIG.GAS_RESERVE_PERCENT (35 in the source). -/
def processPendingDonation (reservePercent : Int) (now : Int)
    (env : RelayEnv) (d : DirectDonation) : RelayStepResult :=
  if d.status != DStatus.pending then
    { record := d, submittedValue := none, tracked := none }
  else if env.confirmedTxCount < env.pendingTxCount then
    { record := d, submittedValue := none, tracked := none }
  else if env.balance < PROCESS_MIN_BALANCE_WEI then
    { record := d, submittedValue := none, tracked := none }
  else
    let gasReserve := Int.tdiv (env.balance * reservePercent) 100
    let donationAmount := env.balance - gasReserve
    if donationAmount ≤ 0 then
      { record := { d with status := DStatus.failed,
                           processed_at := some now },
        submittedValue := none, tracked := none }
    else if env.rpcOk then
      { record := { d with status := DStatus.processing,
                           contract_tx_hash := some env.txHash },
        submittedValue := some donationAmount,
        tracked := some (env.txHash, d.id) }
    else
      { record := { d with status := DStatus.failed,
                           processed_at := some now },
        submittedValue := none, tracked := none }

/-- Entry of the in-memory `txTracker.retryCount` map. -/
structure TrackedEntry where
  donationId : Nat
  count : Nat
  timestamp : Int
deriving Repr, DecidableEq

/-- The `txTracker.retryCount` map, hash to entry. -/
abbrev Tracker := List (String × TrackedEntry)

/-- Method `txTracker.addTransaction`: the entry starts with count 0 and
the current time. -/
def addTransaction (now : Int) (t : Tracker) (h : String)
    (donationId : Nat) : Tracker :=
  assocSet h { donationId := donationId, count := 0, timestamp := now } t

/-- Method `txTracker.removeTransaction`. -/
def removeTransaction (t : Tracker) (h : String) : Tracker :=
  assocRemove h t

/-- Method `txTracker.incrementRetryCount`: bumps the entry's count and
refreshes its timestamp, returning the new count (0 when the hash is
not tracked). -/
def incrementRetryCount (now : Int) (t : Tracker) (h : String) :
    Tracker × Nat :=
  match assocGet h t with
  | some e =>
      (assocSet h { e with count := e.count + 1, timestamp := now } t,
       e.count + 1)
  | none => (t, 0)

/-- Method `txTracker.getStuckTransactions`: entries strictly older than
the threshold (milliseconds) whose count is below the retry cap. -/
def getStuckTransactions (now : Int) (olderThanMinutes : Int)
    (t : Tracker) : Tracker :=
  t.filter (fun p =>
    decide (olderThanMinutes * 60 * 1000 < now - p.2.timestamp) &&
    decide (p.2.count < STUCK_TX_RETRY_COUNT))

/-- Fee data returned by `provider.getFeeData()`. -/
structure FeeData where
  maxFeePerGas : Option Int
  maxPriorityFeePerGas : Option Int
  gasPrice : Int
deriving Repr, DecidableEq

/-- Base fee component the code boosts:
`feeData.maxFeePerGas || feeData.gasPrice`. -/
def feeBase (f : FeeData) : Int :=
  match f.maxFeePerGas with
  | some m => m
  | none => f.gasPrice

/-- Priority fee component the code boosts: `feeData.maxPriorityFeePerGas
|| (feeData.maxFeePerGas ? feeData.maxFeePerGas / 2 : feeData.gasPrice)`. -/
def prioBase (f : FeeData) : Int :=
  match f.maxPriorityFeePerGas with
  | some p => p
  | none =>
      match f.maxFeePerGas with
      | some m => Int.tdiv m 2
      | none => f.gasPrice

/-- The original chain transaction as refetched by
`provider.getTransaction` (only the fields the handler reads). -/
structure ChainTx where
  nonce : Nat
  maxFeePerGas : Int
deriving Repr, DecidableEq

/-- The cancel-or-speed-up transaction built by
`handleStuckTransactions`. -/
structure ReplacementTx where
  toSelf : Bool
  value : Int
  nonce : Nat
  maxFeePerGas : Int
  maxPriorityFeePerGas : Int
  gasLimit : Int
  hash : String
deriving Repr, DecidableEq

/-- Chain-side circumstances seen by one iteration of the
`handleStuckTransactions` loop: current time (ms for the tracker, the
row ages are not consulted here), the re-checked receipt, the refetched
original transaction (`none` when the fetch fails), current fee data
and the hash the replacement would get. -/
structure StuckEnv where
  now : Int
  receipt : Option Receipt
  origTx : Option ChainTx
  feeData : FeeData
  newHash : String
deriving Repr, DecidableEq

/-- Result of one `handleStuckTransactions` iteration. -/
structure StuckResult where
  records : List DirectDonation
  tracker : Tracker
  replacement : Option ReplacementTx
deriving Repr, DecidableEq

/-- SQL `UPDATE direct_donations SET .. WHERE id = $1`. -/
def updateRecord (rows : List DirectDonation) (id : Nat)
    (f : DirectDonation → DirectDonation) : List DirectDonation :=
  rows.map (fun d => if d.id == id then f d else d)

/-- One iteration of the `handleStuckTransactions` loop for the stuck
entry `stuck` (hash and tracked data, as produced by
`getStuckTransactions`).  A late receipt resolves the row terminally
and untracks the hash; a row no longer in processing is just untracked;
a failed refetch of the original transaction leaves everything as is;
otherwise exactly one zero-value self-transfer is submitted that reuses
the original nonce with fees computed from the current fee data boosted
by `STUCK_TX_GAS_BOOST + 20 * retryCount` percent, the row's stored
hash is replaced, the old hash is untracked and the new hash is tracked
as a fresh entry. -/
def handleStuckOne (env : StuckEnv) (stuck : String × TrackedEntry)
    (rows : List DirectDonation) (t : Tracker) : StuckResult :=
  let txHash := stuck.1
  let donationId := stuck.2.donationId
  match env.receipt with
  | some r =>
      let t1 := removeTransaction t txHash
      if r.status == 1 then
        { records := updateRecord rows donationId (fun d =>
            { d with status := DStatus.completed,
                     processed_at := some env.now }),
          tracker := t1, replacement := none }
      else
        { records := updateRecord rows donationId (fun d =>
            { d with status := DStatus.failed,
                     processed_at := some env.now }),
          tracker := t1, replacement := none }
  | none =>
      if (rows.filter (fun d =>
          d.id == donationId && d.status == DStatus.processing)).isEmpty then
        { records := rows, tracker := removeTransaction t txHash,
          replacement := none }
      else
        match env.origTx with
        | none => { records := rows, tracker := t, replacement := none }
        | some tx =>
            let pr := incrementRetryCount env.now t txHash
            let boost := STUCK_TX_GAS_BOOST + (pr.2 : Int) * 20
            let maxFee := Int.tdiv (feeBase env.feeData * boost) 100
            let maxPrio := Int.tdiv (prioBase env.feeData * boost) 100
            { records := updateRecord rows donationId (fun d =>
                { d with contract_tx_hash := some env.newHash }),
              tracker := addTransaction env.now
                (removeTransaction pr.1 txHash) env.newHash donationId,
              replacement := some
                { toSelf := true, value := 0, nonce := tx.nonce,
                  maxFeePerGas := maxFee, maxPriorityFeePerGas := maxPrio,
                  gasLimit := 21000, hash := env.newHash } }

/-- C3: reconciliation of a processing row with a stored hash —
success receipt completes it, failure receipt fails it, no receipt
fails it only past the final timeout and otherwise leaves it
untouched; a pending row is never touched by reconciliation, and the
relay step never produces a completed row from a pending one;
`processed_at` changes only on the terminal transitions of either
function. -/
theorem lifecycle_transitions (now : Int)
    (getReceipt : String → Option Receipt) (rows : List DirectDonation)
    (d : DirectDonation) (reservePercent : Int) (env : RelayEnv) :
    updateTransactionStatus now getReceipt rows =
      rows.map (updateStatusOne now getReceipt)
    ∧ (∀ h r, d.status = DStatus.processing → d.contract_tx_hash = some h →
        getReceipt h = some r → r.status = 1 →
        updateStatusOne now getReceipt d =
          { d with status := DStatus.completed, processed_at := some now })
    ∧ (∀ h r, d.status = DStatus.processing → d.contract_tx_hash = some h →
        getReceipt h = some r → r.status ≠ 1 →
        updateStatusOne now getReceipt d =
          { d with status := DStatus.failed, processed_at := some now })
    ∧ (∀ h, d.status = DStatus.processing → d.contract_tx_hash = some h →
        getReceipt h = none →
        TX_FINAL_TIMEOUT_MINUTES * 60 < now - d.created_at →
        updateStatusOne now getReceipt d =
          { d with status := DStatus.failed, processed_at := some now })
    ∧ (∀ h, d.status = DStatus.processing → d.contract_tx_hash = some h →
        getReceipt h = none →
        ¬ TX_FINAL_TIMEOUT_MINUTES * 60 < now - d.created_at →
        updateStatusOne now getReceipt d = d)
    ∧ (d.status = DStatus.pending → updateStatusOne now getReceipt d = d)
    ∧ (d.status = DStatus.pending →
        (processPendingDonation reservePercent now env d).record.status ≠
          DStatus.completed)
    ∧ ((updateStatusOne now getReceipt d).processed_at ≠ d.processed_at →
        (updateStatusOne now getReceipt d).status = DStatus.completed ∨
        (updateStatusOne now getReceipt d).status = DStatus.failed)
    ∧ ((processPendingDonation reservePercent now env d).record.processed_at ≠
          d.processed_at →
        (processPendingDonation reservePercent now env d).record.status =
          DStatus.failed) := by
  refine ⟨rfl, ?_, ?_, ?_, ?_, ?_, ?_, ?_, ?_⟩
  · intro h r hs hh hr hr1
    simp [updateStatusOne, hh, hs, updateTransactionStatusRow, hr, hr1]
  · intro h r hs hh hr hr1
    simp [updateStatusOne, hh, hs, updateTransactionStatusRow, hr, hr1]
  · intro h hs hh hr ht
    simp [updateStatusOne, hh, hs, updateTransactionStatusRow, hr, ht]
  · intro h hs hh hr ht
    simp [updateStatusOne, hh, hs, updateTransactionStatusRow, hr, ht]
  · intro hp
    unfold updateStatusOne
    cases hh : d.contract_tx_hash <;> simp [hp]
  · intro hp
    unfold processPendingDonation
    by_cases h1 : env.confirmedTxCount < env.pendingTxCount <;>
      by_cases h2 : env.balance < PROCESS_MIN_BALANCE_WEI <;>
      by_cases h3 : env.balance -
        Int.tdiv (env.balance * reservePercent) 100 ≤ 0 <;>
      cases hrpc : env.rpcOk <;>
      simp [hp, h1, h2, h3, hrpc]
  · intro hne
    unfold updateStatusOne at hne ⊢
    cases hh : d.contract_tx_hash with
    | none => simp [hh] at hne
    | some h =>
        simp only [hh] at hne ⊢
        cases hs : d.status == DStatus.processing
        · simp [hs] at hne
        · simp only [hs, if_true] at hne ⊢
          unfold updateTransactionStatusRow at hne ⊢
          cases hr : getReceipt h with
          | none =>
              simp only [hr] at hne ⊢
              by_cases ht : TX_FINAL_TIMEOUT_MINUTES * 60 < now - d.created_at
              · simp [ht]
              · simp [ht] at hne
          | some r =>
              simp only [hr] at hne ⊢
              cases h1 : r.status == 1 <;> simp [h1]
  · intro hne
    unfold processPendingDonation at hne ⊢
    by_cases hp2 : (d.status != DStatus.pending) = true
    · simp [hp2] at hne
    · by_cases h1 : env.confirmedTxCount < env.pendingTxCount
      · simp [hp2, h1] at hne
      · by_cases h2 : env.balance < PROCESS_MIN_BALANCE_WEI
        · simp [hp2, h1, h2] at hne
        · by_cases h3 : env.balance -
            Int.tdiv (env.balance * reservePercent) 100 ≤ 0
          · simp [hp2, h1, h2, h3]
          · cases hrpc : env.rpcOk
            · simp [hp2, h1, h2, h3, hrpc]
            · simp [hp2, h1, h2, h3, hrpc] at hne

/-- Witness for `lifecycle_transitions`: a processing row with a
success receipt completes with `processed_at` set. -/
theorem lifecycle_transitions_w :
    updateStatusOne 100 (fun _ => some { status := 1 })
      { id := 1, campaign_id := 2, wallet_address := "0xw", amount := 5,
        status := DStatus.processing, source_tx_hash := "bal",
        contract_tx_hash := some "0xh", created_at := 0,
        processed_at := none }
    = { id := 1, campaign_id := 2, wallet_address := "0xw", amount := 5,
        status := DStatus.completed, source_tx_hash := "bal",
        contract_tx_hash := some "0xh", created_at := 0,
        processed_at := some 100 } :=
  (lifecycle_transitions 100 (fun _ => some { status := 1 }) []
    { id := 1, campaign_id := 2, wallet_address := "0xw", amount := 5,
      status := DStatus.processing, source_tx_hash := "bal",
      contract_tx_hash := some "0xh", created_at := 0,
      processed_at := none } 35
    { pendingTxCount := 0, confirmedTxCount := 0, balance := 0,
      rpcOk := true, txHash := "0xh" }).2.1
    "0xh" { status := 1 } rfl rfl rfl rfl

/-- C6: once the relay acts on a pending row (re-read status pending,
no outstanding nonce gap, balance at the floor or above), any submitted
donation carries exactly `B - tdiv (B * R) 100` wei, and whenever that
amount is non-positive the row is marked failed with `processed_at`
set, with no submission and no tracker registration. -/
theorem relay_amount_computation (reservePercent now : Int)
    (env : RelayEnv) (d : DirectDonation)
    (hp : d.status = DStatus.pending)
    (hn : env.pendingTxCount ≤ env.confirmedTxCount)
    (hb : PROCESS_MIN_BALANCE_WEI ≤ env.balance) :
    ((processPendingDonation reservePercent now env d).submittedValue = none
      ∨ (processPendingDonation reservePercent now env d).submittedValue =
        some (env.balance - Int.tdiv (env.balance * reservePercent) 100))
    ∧ (env.balance - Int.tdiv (env.balance * reservePercent) 100 ≤ 0 →
        (processPendingDonation reservePercent now env d).record.status =
          DStatus.failed
        ∧ (processPendingDonation reservePercent now env d).record.processed_at
          = some now
        ∧ (processPendingDonation reservePercent now env d).submittedValue =
          none
        ∧ (processPendingDonation reservePercent now env d).tracked = none)
    ∧ (0 < env.balance - Int.tdiv (env.balance * reservePercent) 100 →
        env.rpcOk = true →
        (processPendingDonation reservePercent now env d).submittedValue =
          some (env.balance - Int.tdiv (env.balance * reservePercent) 100)) := by
  have h1 : ¬ env.confirmedTxCount < env.pendingTxCount := by omega
  have h2 : ¬ env.balance < PROCESS_MIN_BALANCE_WEI := by omega
  have hred : processPendingDonation reservePercent now env d =
      (if env.balance - Int.tdiv (env.balance * reservePercent) 100 ≤ 0 then
        { record := { d with status := DStatus.failed,
                             processed_at := some now },
          submittedValue := none, tracked := none }
      else if env.rpcOk then
        { record := { d with status := DStatus.processing,
                             contract_tx_hash := some env.txHash },
          submittedValue := some (env.balance -
            Int.tdiv (env.balance * reservePercent) 100),
          tracked := some (env.txHash, d.id) }
      else
        { record := { d with status := DStatus.failed,
                             processed_at := some now },
          submittedValue := none, tracked := none }) := by
    unfold processPendingDonation
    simp [hp, h1, h2]
  by_cases h3 : env.balance - Int.tdiv (env.balance * reservePercent) 100 ≤ 0
  · refine ⟨Or.inl ?_, fun _ => ?_, fun hpos _ => absurd hpos (not_lt.mpr h3)⟩
    · rw [hred]; simp [h3]
    · rw [hred]; simp [h3]
  · by_cases hrpc : env.rpcOk = true
    · refine ⟨Or.inr ?_, fun hle => absurd hle h3, fun _ _ => ?_⟩
      · rw [hred]; simp [h3, hrpc]
      · rw [hred]; simp [h3, hrpc]
    · refine ⟨Or.inl ?_, fun hle => absurd hle h3,
        fun _ htrue => absurd htrue hrpc⟩
      rw [hred]; simp [h3, hrpc]

/-- Witness for `relay_amount_computation`: balance of one ether at the
default 35 percent reserve submits 0.65 ether. -/
theorem relay_amount_computation_w :
    ((processPendingDonation 35 0
      { pendingTxCount := 0, confirmedTxCount := 0,
        balance := 1000000000000000000, rpcOk := true, txHash := "0xh" }
      { id := 1, campaign_id := 2, wallet_address := "0xw", amount := 5,
        status := DStatus.pending, source_tx_hash := "bal",
        contract_tx_hash := none, created_at := 0,
        processed_at := none }).submittedValue = none
      ∨ (processPendingDonation 35 0
      { pendingTxCount := 0, confirmedTxCount := 0,
        balance := 1000000000000000000, rpcOk := true, txHash := "0xh" }
      { id := 1, campaign_id := 2, wallet_address := "0xw", amount := 5,
        status := DStatus.pending, source_tx_hash := "bal",
        contract_tx_hash := none, created_at := 0,
        processed_at := none }).submittedValue =
        some ((1000000000000000000 : Int) -
          Int.tdiv ((1000000000000000000 : Int) * 35) 100)) :=
  (relay_amount_computation 35 0
    { pendingTxCount := 0, confirmedTxCount := 0,
      balance := 1000000000000000000, rpcOk := true, txHash := "0xh" }
    { id := 1, campaign_id := 2, wallet_address := "0xw", amount := 5,
      status := DStatus.pending, source_tx_hash := "bal",
      contract_tx_hash := none, created_at := 0,
      processed_at := none } rfl (by decide) (by decide)).1

theorem map_proj_updateRecord {β : Type} (rows : List DirectDonation)
    (idd : Nat) (f : DirectDonation → DirectDonation)
    (proj : DirectDonation → β) (hp : ∀ d, proj (f d) = proj d) :
    (updateRecord rows idd f).map proj = rows.map proj := by
  induction rows with
  | nil => rfl
  | cons d t ih =>
      unfold updateRecord at ih ⊢
      have hhead : proj (if (d.id == idd) = true then f d else d) = proj d := by
        by_cases hd : (d.id == idd) = true
        · rw [if_pos hd, hp]
        · rw [if_neg hd]
      rw [List.map_cons, List.map_cons, List.map_cons, ih, hhead]

theorem map_hash_updateRecord (rows : List DirectDonation) (idd : Nat)
    (h : String) :
    (updateRecord rows idd
        (fun d => { d with contract_tx_hash := some h })).map
      (fun d => d.contract_tx_hash) =
    rows.map (fun d =>
      if d.id == idd then some h else d.contract_tx_hash) := by
  induction rows with
  | nil => rfl
  | cons d t ih =>
      unfold updateRecord at ih ⊢
      have hhead : (if (d.id == idd) = true then
          ({ d with contract_tx_hash := some h } : DirectDonation)
          else d).contract_tx_hash =
          (if (d.id == idd) = true then some h else d.contract_tx_hash) := by
        by_cases hd : (d.id == idd) = true
        · rw [if_pos hd, if_pos hd]
        · rw [if_neg hd, if_neg hd]
      rw [List.map_cons, List.map_cons, List.map_cons, ih, hhead]

/-- C7 counterexample: a tracked transaction 10^9 ms old with retry
count 0 (stuck-eligible: older than the 15-minute stuck timeout, count
below the cap of 3) whose original transaction paid `maxFeePerGas` 130
is replaced while the network fee estimate is 10: the replacement pays
`tdiv (10 * 170) 100 = 17 < 130`, NOT strictly more than the original,
because the boost applies to the current estimate, not to the
original's fee; and the new hash enters the tracker with attempt count
0, not an incremented count (the increment lands on the old hash's
entry, which is then deleted). -/
theorem stuck_replacement_cx :
    (getStuckTransactions 1000000000 TX_TIMEOUT_MINUTES
        [("0xold", { donationId := 1, count := 0, timestamp := 0 })] =
      [("0xold", { donationId := 1, count := 0, timestamp := 0 })])
    ∧ ((handleStuckOne
        { now := 1000000000, receipt := none,
          origTx := some { nonce := 5, maxFeePerGas := 130 },
          feeData := { maxFeePerGas := some 10,
                       maxPriorityFeePerGas := some 10, gasPrice := 10 },
          newHash := "0xnew" }
        ("0xold", { donationId := 1, count := 0, timestamp := 0 })
        [{ id := 1, campaign_id := 2, wallet_address := "0xw", amount := 5,
           status := DStatus.processing, source_tx_hash := "bal",
           contract_tx_hash := some "0xold", created_at := 0,
           processed_at := none }]
        [("0xold", { donationId := 1, count := 0,
                     timestamp := 0 })]).replacement =
      some { toSelf := true, value := 0, nonce := 5, maxFeePerGas := 17,
             maxPriorityFeePerGas := 17, gasLimit := 21000,
             hash := "0xnew" })
    ∧ (assocGet "0xnew" (handleStuckOne
        { now := 1000000000, receipt := none,
          origTx := some { nonce := 5, maxFeePerGas := 130 },
          feeData := { maxFeePerGas := some 10,
                       maxPriorityFeePerGas := some 10, gasPrice := 10 },
          newHash := "0xnew" }
        ("0xold", { donationId := 1, count := 0, timestamp := 0 })
        [{ id := 1, campaign_id := 2, wallet_address := "0xw", amount := 5,
           status := DStatus.processing, source_tx_hash := "bal",
           contract_tx_hash := some "0xold", created_at := 0,
           processed_at := none }]
        [("0xold", { donationId := 1, count := 0,
                     timestamp := 0 })]).tracker =
      some { donationId := 1, count := 0, timestamp := 1000000000 })
    ∧ (17 : Int) < 130 := by
  refine ⟨by decide, by decide, by decide, by decide⟩

/-- C7 as amended: under the stuck conditions (no late receipt, row
still processing, original transaction refetched, old hash tracked with
count `c`), the handler submits exactly one replacement: a zero-value
self-transfer reusing the original nonce, with fees equal to the
current fee estimate boosted by `STUCK_TX_GAS_BOOST + 20 * (c + 1)`
percent — not necessarily above the original transaction's fee — after
which the row's stored hash is the replacement hash, the old hash is
untracked, and the new hash is tracked with attempt count reset to 0
(the increment is recorded on the old entry before it is deleted). -/
theorem stuck_replacement_behavior (env : StuckEnv)
    (stuck : String × TrackedEntry) (rows : List DirectDonation)
    (t : Tracker) (hr : env.receipt = none)
    (hp : (rows.filter (fun d => d.id == stuck.2.donationId &&
        d.status == DStatus.processing)).isEmpty = false)
    (tx : ChainTx) (htx : env.origTx = some tx)
    (c : TrackedEntry) (hc : assocGet stuck.1 t = some c)
    (hne : env.newHash ≠ stuck.1) :
    (handleStuckOne env stuck rows t).replacement =
      some { toSelf := true, value := 0, nonce := tx.nonce,
             maxFeePerGas := Int.tdiv (feeBase env.feeData *
               (STUCK_TX_GAS_BOOST + ((c.count + 1 : Nat) : Int) * 20)) 100,
             maxPriorityFeePerGas := Int.tdiv (prioBase env.feeData *
               (STUCK_TX_GAS_BOOST + ((c.count + 1 : Nat) : Int) * 20)) 100,
             gasLimit := 21000, hash := env.newHash }
    ∧ (handleStuckOne env stuck rows t).records =
        updateRecord rows stuck.2.donationId
          (fun d => { d with contract_tx_hash := some env.newHash })
    ∧ assocGet env.newHash (handleStuckOne env stuck rows t).tracker =
        some { donationId := stuck.2.donationId, count := 0,
               timestamp := env.now }
    ∧ assocGet stuck.1 (handleStuckOne env stuck rows t).tracker = none := by
  have hred : handleStuckOne env stuck rows t =
      { records := updateRecord rows stuck.2.donationId (fun d =>
          { d with contract_tx_hash := some env.newHash }),
        tracker := addTransaction env.now
          (removeTransaction
            (assocSet stuck.1
              { c with count := c.count + 1, timestamp := env.now } t)
            stuck.1) env.newHash stuck.2.donationId,
        replacement := some
          { toSelf := true, value := 0, nonce := tx.nonce,
            maxFeePerGas := Int.tdiv (feeBase env.feeData *
              (STUCK_TX_GAS_BOOST + ((c.count + 1 : Nat) : Int) * 20)) 100,
            maxPriorityFeePerGas := Int.tdiv (prioBase env.feeData *
              (STUCK_TX_GAS_BOOST + ((c.count + 1 : Nat) : Int) * 20)) 100,
            gasLimit := 21000, hash := env.newHash } } := by
    unfold handleStuckOne incrementRetryCount
    rw [hr, htx]
    simp [hp, hc]
  rw [hred]
  refine ⟨rfl, rfl, ?_, ?_⟩
  · exact assocGet_set env.newHash _ _
  · show assocGet stuck.1 (assocSet env.newHash _ _) = none
    rw [assocGet_set_ne stuck.1 env.newHash _ _ (Ne.symm hne)]
    exact assocGet_remove stuck.1 _

/-- Witness for `stuck_replacement_behavior` at the inputs of the
counterexample scenario. -/
theorem stuck_replacement_behavior_w :
    (handleStuckOne
      { now := 1000000000, receipt := none,
        origTx := some { nonce := 5, maxFeePerGas := 130 },
        feeData := { maxFeePerGas := some 10,
                     maxPriorityFeePerGas := some 10, gasPrice := 10 },
        newHash := "0xnew" }
      ("0xold", { donationId := 1, count := 0, timestamp := 0 })
      [{ id := 1, campaign_id := 2, wallet_address := "0xw", amount := 5,
         status := DStatus.processing, source_tx_hash := "bal",
         contract_tx_hash := some "0xold", created_at := 0,
         processed_at := none }]
      [("0xold", { donationId := 1, count := 0,
                   timestamp := 0 })]).replacement =
      some { toSelf := true, value := 0, nonce := 5,
             maxFeePerGas := Int.tdiv (feeBase
               { maxFeePerGas := some 10, maxPriorityFeePerGas := some 10,
                 gasPrice := 10 } *
               (STUCK_TX_GAS_BOOST + (((0 : Nat) + 1 : Nat) : Int) * 20)) 100,
             maxPriorityFeePerGas := Int.tdiv (prioBase
               { maxFeePerGas := some 10, maxPriorityFeePerGas := some 10,
                 gasPrice := 10 } *
               (STUCK_TX_GAS_BOOST + (((0 : Nat) + 1 : Nat) : Int) * 20)) 100,
             gasLimit := 21000, hash := "0xnew" } :=
  (stuck_replacement_behavior
    { now := 1000000000, receipt := none,
      origTx := some { nonce := 5, maxFeePerGas := 130 },
      feeData := { maxFeePerGas := some 10,
                   maxPriorityFeePerGas := some 10, gasPrice := 10 },
      newHash := "0xnew" }
    ("0xold", { donationId := 1, count := 0, timestamp := 0 })
    [{ id := 1, campaign_id := 2, wallet_address := "0xw", amount := 5,
       status := DStatus.processing, source_tx_hash := "bal",
       contract_tx_hash := some "0xold", created_at := 0,
       processed_at := none }]
    [("0xold", { donationId := 1, count := 0, timestamp := 0 })]
    rfl (by decide) { nonce := 5, maxFeePerGas := 130 } rfl
    { donationId := 1, count := 0, timestamp := 0 } (by decide)
    (by decide)).1

/-- C10: the replacement path of the stuck-transaction handler changes
only the row's `contract_tx_hash` (to the replacement hash, for the
rows matching the donation id): status, `processed_at` and every other
column are untouched, so a replacement is never itself a terminal
transition. -/
theorem stuck_replacement_frame (env : StuckEnv)
    (stuck : String × TrackedEntry) (rows : List DirectDonation)
    (t : Tracker) (hr : env.receipt = none)
    (hp : (rows.filter (fun d => d.id == stuck.2.donationId &&
        d.status == DStatus.processing)).isEmpty = false)
    (tx : ChainTx) (htx : env.origTx = some tx) :
    (handleStuckOne env stuck rows t).records =
      updateRecord rows stuck.2.donationId
        (fun d => { d with contract_tx_hash := some env.newHash })
    ∧ (handleStuckOne env stuck rows t).records.map (fun d => d.status) =
        rows.map (fun d => d.status)
    ∧ (handleStuckOne env stuck rows t).records.map
        (fun d => d.processed_at) = rows.map (fun d => d.processed_at)
    ∧ (handleStuckOne env stuck rows t).records.map (fun d => d.id) =
        rows.map (fun d => d.id)
    ∧ (handleStuckOne env stuck rows t).records.map
        (fun d => d.campaign_id) = rows.map (fun d => d.campaign_id)
    ∧ (handleStuckOne env stuck rows t).records.map
        (fun d => d.wallet_address) = rows.map (fun d => d.wallet_address)
    ∧ (handleStuckOne env stuck rows t).records.map (fun d => d.amount) =
        rows.map (fun d => d.amount)
    ∧ (handleStuckOne env stuck rows t).records.map
        (fun d => d.created_at) = rows.map (fun d => d.created_at)
    ∧ (handleStuckOne env stuck rows t).records.map
        (fun d => d.source_tx_hash) = rows.map (fun d => d.source_tx_hash)
    ∧ (handleStuckOne env stuck rows t).records.map
        (fun d => d.contract_tx_hash) =
        rows.map (fun d => if d.id == stuck.2.donationId then
          some env.newHash else d.contract_tx_hash) := by
  have hrec : (handleStuckOne env stuck rows t).records =
      updateRecord rows stuck.2.donationId
        (fun d => { d with contract_tx_hash := some env.newHash }) := by
    unfold handleStuckOne
    rw [hr, htx]
    simp [hp]
  refine ⟨hrec, ?_, ?_, ?_, ?_, ?_, ?_, ?_, ?_, ?_⟩ <;> rw [hrec]
  · exact map_proj_updateRecord rows _ _ _ (fun d => rfl)
  · exact map_proj_updateRecord rows _ _ _ (fun d => rfl)
  · exact map_proj_updateRecord rows _ _ _ (fun d => rfl)
  · exact map_proj_updateRecord rows _ _ _ (fun d => rfl)
  · exact map_proj_updateRecord rows _ _ _ (fun d => rfl)
  · exact map_proj_updateRecord rows _ _ _ (fun d => rfl)
  · exact map_proj_updateRecord rows _ _ _ (fun d => rfl)
  · exact map_proj_updateRecord rows _ _ _ (fun d => rfl)
  · exact map_hash_updateRecord rows _ _

/-- Witness for `stuck_replacement_frame`: the replaced row keeps its
processing status and empty `processed_at`. -/
theorem stuck_replacement_frame_w :
    (handleStuckOne
      { now := 1000000000, receipt := none,
        origTx := some { nonce := 5, maxFeePerGas := 130 },
        feeData := { maxFeePerGas := some 10,
                     maxPriorityFeePerGas := some 10, gasPrice := 10 },
        newHash := "0xnew" }
      ("0xold", { donationId := 1, count := 0, timestamp := 0 })
      [{ id := 1, campaign_id := 2, wallet_address := "0xw", amount := 5,
         status := DStatus.processing, source_tx_hash := "bal",
         contract_tx_hash := some "0xold", created_at := 0,
         processed_at := none }]
      [("0xold", { donationId := 1, count := 0,
                   timestamp := 0 })]).records.map (fun d => d.status) =
      ([{ id := 1, campaign_id := 2, wallet_address := "0xw", amount := 5,
          status := DStatus.processing, source_tx_hash := "bal",
          contract_tx_hash := some "0xold", created_at := 0,
          processed_at := none }] : List DirectDonation).map
        (fun d => d.status)
    ∧ (handleStuckOne
      { now := 1000000000, receipt := none,
        origTx := some { nonce := 5, maxFeePerGas := 130 },
        feeData := { maxFeePerGas := some 10,
                     maxPriorityFeePerGas := some 10, gasPrice := 10 },
        newHash := "0xnew" }
      ("0xold", { donationId := 1, count := 0, timestamp := 0 })
      [{ id := 1, campaign_id := 2, wallet_address := "0xw", amount := 5,
         status := DStatus.processing, source_tx_hash := "bal",
         contract_tx_hash := some "0xold", created_at := 0,
         processed_at := none }]
      [("0xold", { donationId := 1, count := 0,
                   timestamp := 0 })]).records.map
        (fun d => d.processed_at) =
      ([{ id := 1, campaign_id := 2, wallet_address := "0xw", amount := 5,
          status := DStatus.processing, source_tx_hash := "bal",
          contract_tx_hash := some "0xold", created_at := 0,
          processed_at := none }] : List DirectDonation).map
        (fun d => d.processed_at) :=
  ⟨(stuck_replacement_frame
    { now := 1000000000, receipt := none,
      origTx := some { nonce := 5, maxFeePerGas := 130 },
      feeData := { maxFeePerGas := some 10,
                   maxPriorityFeePerGas := some 10, gasPrice := 10 },
      newHash := "0xnew" }
    ("0xold", { donationId := 1, count := 0, timestamp := 0 })
    [{ id := 1, campaign_id := 2, wallet_address := "0xw", amount := 5,
       status := DStatus.processing, source_tx_hash := "bal",
       contract_tx_hash := some "0xold", created_at := 0,
       processed_at := none }]
    [("0xold", { donationId := 1, count := 0, timestamp := 0 })]
    rfl (by decide) { nonce := 5, maxFeePerGas := 130 } rfl).2.1,
   (stuck_replacement_frame
    { now := 1000000000, receipt := none,
      origTx := some { nonce := 5, maxFeePerGas := 130 },
      feeData := { maxFeePerGas := some 10,
                   maxPriorityFeePerGas := some 10, gasPrice := 10 },
      newHash := "0xnew" }
    ("0xold", { donationId := 1, count := 0, timestamp := 0 })
    [{ id := 1, campaign_id := 2, wallet_address := "0xw", amount := 5,
       status := DStatus.processing, source_tx_hash := "bal",
       contract_tx_hash := some "0xold", created_at := 0,
       processed_at := none }]
    [("0xold", { donationId := 1, count := 0, timestamp := 0 })]
    rfl (by decide) { nonce := 5, maxFeePerGas := 130 } rfl).2.2.1⟩
